import Mathlib

/-!
Verification of the bulk Volatility scanner (`bulk_vol.py`) against its
natural-language specification.

The development shallowly embeds the program: paths and file contents are
`String`s, the process-level side effects that the claims talk about
(invocations of the external detection tool, the detection-report file)
are recorded in an explicit event record, and the scheduler loop of
`main` is a step function on an explicit state, driven by an oracle that
says which worker processes are still alive at each polling instant.
-/

namespace BulkVol

/-! ## Python string primitives used by the source -/

/-- Python's `s.split(c)` for a single separator character, on a character
list: splitting the empty string yields `[""]`, adjacent separators yield
empty pieces. -/
def splitOnChar (c : Char) : List Char → List (List Char)
  | [] => [[]]
  | x :: xs =>
    let r := splitOnChar c xs
    if x = c then [] :: r
    else
      match r with
      | [] => [[x]]
      | y :: ys => (x :: y) :: ys

/-- Python's `s.split(c)` on `String`s. -/
def pySplit (s : String) (c : Char) : List String :=
  (splitOnChar c s.data).map (fun l => String.mk l)

/-- Python's `s.strip(c)`: remove every leading and trailing occurrence of
the character `c`. -/
def pyStrip (c : Char) (s : String) : String :=
  String.mk (((s.data.dropWhile (fun x => x = c)).reverse.dropWhile
    (fun x => x = c)).reverse)

/-- Whether a string's last character is a slash. -/
def endsWithSlash (s : String) : Bool :=
  match s.data.getLast? with
  | some c => c = '/'
  | none => false

/-- `os.path.join a b` on POSIX for a single extra part: an absolute `b`
replaces `a`; otherwise `b` is appended, with a slash inserted unless `a`
is empty or already ends in a slash.  In particular
`pyJoin "/out" "" = "/out/"`, as in CPython. -/
def pyJoin (a b : String) : String :=
  if b.data.head? = some '/' then b
  else if a = "" ∨ endsWithSlash a then a ++ b
  else a ++ "/" ++ b

/-- `os.path.basename p` on POSIX: everything after the last slash. -/
def pyBasename (p : String) : String :=
  (pySplit p '/').getLastD ""

/-- `os.path.abspath p` relative to a working directory, for paths without
`.`/`..` components (normalisation is not modelled; no claim depends on
it). -/
def pyAbspath (cwd p : String) : String :=
  if p.data.head? = some '/' then p else pyJoin cwd p

/-- `'.'.join(basename.split('.')[:-1])`: the source's derivation of the
image name from the basename (drops the extension; empty when the
basename holds no dot). -/
def imageNameFrom (basename : String) : String :=
  String.intercalate "." ((pySplit basename '.').dropLast)

/-- Python's iteration over the lines of an open text file: each line keeps
its trailing newline; a final fragment without a newline is still yielded;
an empty file yields nothing. -/
def pyFileLines (s : String) : List String :=
  let parts := pySplit s '\n'
  let front := parts.dropLast.map (fun l => l ++ "\n")
  match parts.getLast? with
  | some last => if last = "" then front else front ++ [last]
  | none => front

/-- The suffix of `s` right after the first (leftmost) occurrence of
`pat`, if `pat` occurs in `s`.  This is where a regular expression whose
pattern starts with the literal `pat` begins capturing. -/
def findSuffixAfter (pat : List Char) (s : List Char) : Option (List Char) :=
  if pat.isPrefixOf s then some (s.drop pat.length)
  else
    match s with
    | [] => none
    | _ :: t => findSuffixAfter pat t

/-- Whether `pat` occurs as a substring of `s` (Python's `pat in s`). -/
def containsSubstr (pat s : String) : Bool :=
  (findSuffixAfter pat.data s.data).isSome

/-- Python's `s.split(sep)` for a non-empty multi-character separator,
scanning left to right without overlap.  Structural recursion on a fuel
that starts at the string's length (each step consumes at least one
character, so the fuel never runs out). -/
def splitOnSeqFuel (sep : List Char) : Nat → List Char → List (List Char)
  | 0, s => [s]
  | fuel + 1, s =>
    if sep ≠ [] ∧ sep.isPrefixOf s then
      [] :: splitOnSeqFuel sep fuel (s.drop sep.length)
    else
      match s with
      | [] => [[]]
      | x :: xs =>
        match splitOnSeqFuel sep fuel xs with
        | [] => [[x]]
        | y :: ys => (x :: y) :: ys

/-- Python's `s.split(sep)` on `String`s (non-empty `sep`). -/
def pySplitOnStr (s sep : String) : List String :=
  (splitOnSeqFuel sep.data s.data.length s.data).map (fun l => String.mk l)

/-- A hexadecimal digit as matched by the character class of the KDBG
regular expression, `[a-fA-F0-9]`. -/
def isHexChar (c : Char) : Bool :=
  c.isDigit ∨ ('a' ≤ c ∧ c ≤ 'f') ∨ ('A' ≤ c ∧ c ≤ 'F')

/-- Whether a byte (given as its ASCII character) is printable for the
purposes of Python's `bytes` repr. -/
def isPrintableByte (c : Char) : Bool :=
  0x20 ≤ c.toNat ∧ c.toNat < 0x7f

/-- The hex digit for a value below 16, as `repr` of `bytes` prints it. -/
def hexDigit (n : Nat) : Char :=
  if n < 10 then Char.ofNat (48 + n) else Char.ofNat (87 + (n - 10))

/-- One byte of a Python `bytes` value as `repr` escapes it, given the
chosen quote character. -/
def pyByteEscape (q c : Char) : List Char :=
  if c = '\\' then ['\\', '\\']
  else if c = '\t' then ['\\', 't']
  else if c = '\n' then ['\\', 'n']
  else if c = '\r' then ['\\', 'r']
  else if c = q then ['\\', q]
  else if isPrintableByte c then [c]
  else ['\\', 'x', hexDigit (c.toNat / 16), hexDigit (c.toNat % 16)]

/-- Python's `str(result_bytes)` — i.e. `repr` — of a `bytes` value whose
bytes are the ASCII code units of `s`: a `b` prefix, a quote (single,
unless the data holds a single quote and no double quote), the escaped
bytes, and the closing quote.  The source applies the detection regular
expressions to THIS string, not to the decoded text, so real newlines in
the tool's output appear as the two characters backslash-n. -/
def pyBytesRepr (s : String) : String :=
  let q : Char :=
    if s.data.contains '\'' ∧ ¬ s.data.contains '"' then '"' else '\''
  "b" ++ String.mk [q] ++ String.mk (s.data.flatMap (pyByteEscape q)) ++ String.mk [q]

/-- Python truthiness of an optional string (`None` and `""` are falsy). -/
def truthy : Option String → Bool
  | none => false
  | some s => s ≠ ""

/-! ## Module-level constants of `bulk_vol.py` -/

def DUMP_DIR_FLAG : String := "--dump-dir="

def SUPPORTED_PROFILES : List String := [
  "VistaSP0x64", "VistaSP0x86", "VistaSP1x64", "VistaSP1x86",
  "VistaSP2x64", "VistaSP2x86",
  "Win10x64", "Win10x64_10240_17770", "Win10x64_10586", "Win10x64_14393",
  "Win10x64_15063", "Win10x64_16299", "Win10x64_17134", "Win10x64_17763",
  "Win10x64_18362", "Win10x64_19041",
  "Win10x86", "Win10x86_10240_17770", "Win10x86_10586", "Win10x86_14393",
  "Win10x86_15063", "Win10x86_16299", "Win10x86_17134", "Win10x86_17763",
  "Win10x86_18362", "Win10x86_19041",
  "Win2003SP0x86", "Win2003SP1x64", "Win2003SP1x86", "Win2003SP2x64",
  "Win2003SP2x86",
  "Win2008R2SP0x64", "Win2008R2SP1x64", "Win2008R2SP1x64_23418",
  "Win2008R2SP1x64_24000",
  "Win2008SP1x64", "Win2008SP1x86", "Win2008SP2x64", "Win2008SP2x86",
  "Win2012R2x64", "Win2012R2x64_18340", "Win2012x64", "Win2016x64_14393",
  "Win7SP0x64", "Win7SP0x86", "Win7SP1x64", "Win7SP1x64_23418",
  "Win7SP1x64_24000", "Win7SP1x86", "Win7SP1x86_23418", "Win7SP1x86_24000",
  "Win81U1x64", "Win81U1x86",
  "Win8SP0x64", "Win8SP0x86", "Win8SP1x64", "Win8SP1x64_18340", "Win8SP1x86",
  "WinXPSP1x64", "WinXPSP2x64", "WinXPSP2x86", "WinXPSP3x86"]

def BASE_PLUGINS : List String := [
  "malprocfind", "pslist", "psscan", "pstree",
  "cmdline", "dlllist", "getsids", "handles", "mutantscan", "svcscan",
  "hollowfind", "ldrmodules", "malfind",
  "apihooks", "driverirp", "idt", "modscan", "psxview", "ssdt",
  "cmdscan", "consoles",
  "dlldump " ++ DUMP_DIR_FLAG,
  "dumpfiles " ++ DUMP_DIR_FLAG,
  "filescan",
  "memdump " ++ DUMP_DIR_FLAG,
  "moddump " ++ DUMP_DIR_FLAG,
  "procdump " ++ DUMP_DIR_FLAG]

/-- Plugins that run on Windows XP and Windows Server 2003. -/
def OLDER_WINDOWS_PLUGINS : List String :=
  ["connections", "connscan", "sockets", "sockscan"]

/-- Plugins that run on Vista, Windows 7/8/10 and Windows Server 2008+. -/
def NEWER_WINDOWS_PLUGINS : List String := ["netscan"]

def ALL_PLUGINS : List String :=
  BASE_PLUGINS ++ OLDER_WINDOWS_PLUGINS ++ NEWER_WINDOWS_PLUGINS

def DEFAULT_OUTPUT_DIR : String := "./"
def DEFAULT_VOL_INVOCATION : String := "vol.py"
def DEFAULT_EXTRACT_ARTIFACTS : Bool := false
def MAX_SIMULTANEOUS_WORKERS : Nat := 6

/-! ## `MemoryImage`: artifact descriptor resolution -/

/-- The fields of a fully initialised `MemoryImage` object. -/
structure MemoryImage where
  invocation : String
  basename : String
  image_name : String
  abspath : String
  output_directory : String
  profile : String
  kdbg : String
  extract_artifacts : Bool
  valid_plugins : List String
deriving DecidableEq, Repr

/-- How `MemoryImage.__init__` can abort: `sys.exit()` on an invalid
explicit profile, or an uncaught `AttributeError` when one of the two
detection regular expressions fails to match (`None.group(1)`); the
profile pattern is evaluated first. -/
inductive ResolveErr
  | invalidProfile
  | profilePatternMissing
  | kdbgPatternMissing
deriving DecidableEq, Repr

/-- Observable side effects of descriptor resolution towards the external
tool: how many times the detection (`imageinfo`) invocation ran, and the
path of the detection-report file it wrote, if any. -/
structure DetectEvents where
  calls : Nat
  reportPath : Option String
deriving DecidableEq, Repr

/-- `MemoryImage.populate_valid_plugins`: lines of the plugin-list file
verbatim when one is given; otherwise the catalogue subset chosen by
matching the profile against `(WinXP)|(Win2003)` at the start, with the
dump-directory plugins filtered out unless artifact extraction is on. -/
def populateValidPlugins (plugins_list : Option String) (profile : String)
    (extract_artifacts : Bool) : List String :=
  match plugins_list with
  | some content => pyFileLines content
  | none =>
    let valid_plugins :=
      if ("WinXP".isPrefixOf profile ∨ "Win2003".isPrefixOf profile) then
        BASE_PLUGINS ++ OLDER_WINDOWS_PLUGINS
      else
        BASE_PLUGINS ++ NEWER_WINDOWS_PLUGINS
    if ¬ extract_artifacts then
      valid_plugins.filter (fun plugin => ¬ containsSubstr DUMP_DIR_FLAG plugin)
    else valid_plugins

/-- The `MemoryImage` value produced by a resolution that did not abort,
with the finally selected profile and KDBG offset. -/
def mkResolvedImage (cwd invocation image_path master_output_directory : String)
    (plugins_list : Option String) (extract_artifacts : Bool)
    (finalProfile finalKdbg : String) : MemoryImage :=
  let basename := pyBasename image_path
  let image_name := imageNameFrom basename
  { invocation := invocation
    basename := basename
    image_name := image_name
    abspath := pyAbspath cwd image_path
    output_directory := pyJoin master_output_directory image_name
    profile := finalProfile
    kdbg := finalKdbg
    extract_artifacts := extract_artifacts
    valid_plugins := populateValidPlugins plugins_list finalProfile extract_artifacts }

/-- The `imageinfo` parsing step of `MemoryImage.__init__`, applied to
`result_str` (the `str()` of the raw output bytes): the profile pattern is
searched first (its failure is the `AttributeError` raised first), the
capture of `([^\n]*)` runs to the next real newline, the captured text is
split on `", "` and its first entry taken; then the `KDBG : (0x[a-fA-F0-9]*)`
pattern yields the offset.  Returns `(auto profile, auto kdbg)`. -/
def parseDetection (result_str : String) : Except ResolveErr (String × String) :=
  match findSuffixAfter ("Suggested Profile(s) : ").data result_str.data with
  | none => Except.error ResolveErr.profilePatternMissing
  | some afterProfile =>
    let auto_profiles :=
      pySplitOnStr (String.mk (afterProfile.takeWhile (fun c => c ≠ '\n'))) ", "
    match findSuffixAfter ("KDBG : 0x").data result_str.data with
    | none => Except.error ResolveErr.kdbgPatternMissing
    | some afterKdbg =>
      Except.ok (auto_profiles.headI, "0x" ++ String.mk (afterKdbg.takeWhile isHexChar))

/-- `MemoryImage.__init__`.  `detectOutput` stands for the bytes the
detection subprocess would print; it is consulted only on the branch that
actually invokes detection.  Returns the resolution result together with
the detection events.  Faithful points: the explicit profile is validated
(and `sys.exit()` taken) before any detection; the report file is written
before the regular expressions run, so it exists even when parsing fails;
the regular expressions run over `str(result_bytes)`, the `bytes` repr. -/
def resolveImage (cwd invocation image_path : String)
    (profile kdbg : Option String) (master_output_directory : String)
    (plugins_list : Option String) (extract_artifacts : Bool)
    (detectOutput : String) : Except ResolveErr MemoryImage × DetectEvents :=
  let image_name := imageNameFrom (pyBasename image_path)
  let output_directory := pyJoin master_output_directory image_name
  if truthy profile ∧ (profile.getD "") ∉ SUPPORTED_PROFILES then
    (Except.error ResolveErr.invalidProfile, ⟨0, none⟩)
  else if truthy profile ∧ truthy kdbg then
    (Except.ok (mkResolvedImage cwd invocation image_path master_output_directory
        plugins_list extract_artifacts (profile.getD "") (kdbg.getD "")),
     ⟨0, none⟩)
  else
    let output_path := pyJoin output_directory (image_name ++ "_imageinfo.txt")
    let events : DetectEvents := ⟨1, some output_path⟩
    match parseDetection (pyBytesRepr detectOutput) with
    | Except.error e => (Except.error e, events)
    | Except.ok auto =>
      (Except.ok (mkResolvedImage cwd invocation image_path
          master_output_directory plugins_list extract_artifacts
          (if truthy profile then profile.getD "" else auto.1)
          (if truthy kdbg then kdbg.getD "" else auto.2)),
       events)

/-! ## Tasks and the task expander -/

/-- The `Task` record: image basename, plugin name, output file path and
the fully resolved command line. -/
structure Task where
  image_basename : String
  plugin : String
  output_path : String
  commandline : List String
deriving DecidableEq, Repr

/-- `create_dump_dir`: the path of the per-plugin dump directory (the
directory-creation side effect is idempotent and not otherwise
observable). -/
def createDumpDirPath (plugin_name : String) (image : MemoryImage) : String :=
  pyJoin image.output_directory (image.image_name ++ "_" ++ plugin_name ++ "_results")

/-- `process_plugin`: split the raw spec on single spaces; a lone token is
the newline-stripped name with no flags; otherwise the head token
(newline-stripped) is the name and each following token (newline-stripped)
a flag, with a flag equal to `DUMP_DIR_FLAG` extended by the dump
directory path. -/
def processPlugin (image : MemoryImage) (plugin : String) : String × List String :=
  let parts := pySplit plugin ' '
  if parts.length = 1 then
    (pyStrip '\n' plugin, [])
  else
    let plugin_name := pyStrip '\n' parts.headI
    let flags := parts.tail.map (pyStrip '\n')
    let plugin_flags := flags.map (fun flag =>
      if flag = DUMP_DIR_FLAG then flag ++ createDumpDirPath plugin_name image
      else flag)
    (plugin_name, plugin_flags)

/-- The body of `generate_future_tasks`, recursing over the remaining
plugin specs. -/
def generateTasksAux (image : MemoryImage) : List String → List Task
  | [] => []
  | plugin :: rest =>
    let pf := processPlugin image plugin
    let output_filename := image.image_name ++ "_" ++ pf.1 ++ ".txt"
    let output_path := pyJoin image.output_directory output_filename
    let commandline :=
      [image.invocation, "-f", image.abspath,
       "--profile=" ++ image.profile, "--kdbg=" ++ image.kdbg, pf.1] ++ pf.2
    Task.mk image.basename pf.1 output_path commandline :: generateTasksAux image rest

/-- `generate_future_tasks`: one `Task` per entry of `valid_plugins`, in
order. -/
def generateFutureTasks (image : MemoryImage) : List Task :=
  generateTasksAux image image.valid_plugins

/-! ## `main`: resolution loop, task queue, exit code -/

/-- Whether an `Except` value is a success. -/
def exceptOk {ε α : Type} : Except ε α → Bool
  | Except.ok _ => true
  | Except.error _ => false

instance {ε α : Type} [DecidableEq ε] [DecidableEq α] : DecidableEq (Except ε α) := fun a b =>
  match a, b with
  | Except.error x, Except.error y =>
    if h : x = y then Decidable.isTrue (by rw [h])
    else Decidable.isFalse (by simp [h])
  | Except.error _, Except.ok _ => Decidable.isFalse (by simp)
  | Except.ok _, Except.error _ => Decidable.isFalse (by simp)
  | Except.ok x, Except.ok y =>
    if h : x = y then Decidable.isTrue (by rw [h])
    else Decidable.isFalse (by simp [h])

/-- The resolution loop of `main` over the image files (each given with
the output its detection invocation would produce): images are resolved
in order and the first abort stops the whole run. -/
def resolveAllImages (cwd invocation master_output_directory : String)
    (profile kdbg : Option String) (plugins_list : Option String)
    (extract_artifacts : Bool) :
    List (String × String) → Except ResolveErr (List MemoryImage)
  | [] => Except.ok []
  | (image_path, detectOutput) :: rest =>
    match (resolveImage cwd invocation image_path profile kdbg
        master_output_directory plugins_list extract_artifacts detectOutput).1 with
    | Except.error e => Except.error e
    | Except.ok image =>
      match resolveAllImages cwd invocation master_output_directory profile kdbg
          plugins_list extract_artifacts rest with
      | Except.error e => Except.error e
      | Except.ok images => Except.ok (image :: images)

/-- The global task list `main` builds before the scheduler loop runs:
the concatenation, in image order, of every image's generated tasks —
unless resolution aborted first, in which case no task is ever scheduled. -/
def mainTasks (cwd invocation master_output_directory : String)
    (profile kdbg : Option String) (plugins_list : Option String)
    (extract_artifacts : Bool) (images : List (String × String)) :
    Except ResolveErr (List Task) :=
  match resolveAllImages cwd invocation master_output_directory profile kdbg
      plugins_list extract_artifacts images with
  | Except.error e => Except.error e
  | Except.ok resolved => Except.ok (resolved.map generateFutureTasks).flatten

/-- The process exit code of a run of `main`.  An invalid explicit profile
aborts via `sys.exit()` with no argument, which is exit status 0; a
detection-pattern parse failure is an uncaught `AttributeError`, exit
status 1; otherwise the scheduler runs and `main` ends in `sys.exit()`
(status 0) — also when the loop was broken by a `KeyboardInterrupt`,
which `interrupted` records. -/
def mainExitCode (cwd invocation master_output_directory : String)
    (profile kdbg : Option String) (plugins_list : Option String)
    (extract_artifacts : Bool) (images : List (String × String))
    (_interrupted : Bool) : Nat :=
  match resolveAllImages cwd invocation master_output_directory profile kdbg
      plugins_list extract_artifacts images with
  | Except.error ResolveErr.invalidProfile => 0
  | Except.error ResolveErr.profilePatternMissing => 1
  | Except.error ResolveErr.kdbgPatternMissing => 1
  | Except.ok _ => 0

/-! ## The scheduler / worker-pool loop of `main`

The loop `while tasks or workers:` is modelled as a step function on an
explicit state.  Worker processes are identified by the order in which
they were spawned (`nextId` is the next fresh identifier); whether a
worker process is still alive at a given polling instant is supplied by
an oracle.  `started` logs, most recent first, every task a worker was
spawned for. -/

structure SchedState where
  tasks : List Task
  workers : List (Nat × Task)
  started : List Task
  nextId : Nat
deriving Repr

/-- The polling pass of the scheduler: Python's
`for i, worker in enumerate(workers): if not alive: workers.pop(i)`.
The index keeps advancing over the list being mutated, so the element
right after a removed one is skipped in the same pass — exactly as the
source does. -/
def pollWorkers (alive : Nat → Bool) (ws : List (Nat × Task)) (i : Nat) :
    List (Nat × Task) :=
  if h : i < ws.length then
    if alive (ws.get ⟨i, h⟩).1 then pollWorkers alive ws (i + 1)
    else pollWorkers alive (ws.eraseIdx i) (i + 1)
  else ws
termination_by ws.length - i
decreasing_by
  · omega
  · simp [List.length_eraseIdx, h]; omega

/-- One iteration of the scheduler loop: when tasks are pending and the
worker count is strictly below `MAX_SIMULTANEOUS_WORKERS`, pop the LAST
pending task (`tasks.pop()`) and append a new worker for it; otherwise
sleep and run the polling pass that drops workers whose process has
exited. -/
def schedStep (alive : Nat → Bool) (σ : SchedState) : SchedState :=
  if h : σ.tasks ≠ [] ∧ σ.workers.length < MAX_SIMULTANEOUS_WORKERS then
    let t := σ.tasks.getLast h.1
    { tasks := σ.tasks.dropLast
      workers := σ.workers ++ [(σ.nextId, t)]
      started := t :: σ.started
      nextId := σ.nextId + 1 }
  else
    { σ with workers := pollWorkers alive σ.workers 0 }

/-- The scheduler's initial state, with the full task list queued. -/
def initState (ts : List Task) : SchedState :=
  { tasks := ts, workers := [], started := [], nextId := 0 }

/-- The scheduler after `n` iterations, under the aliveness oracle `O`
(`O n id` tells whether worker `id` is still alive when iteration `n`
polls). -/
def schedRun (O : Nat → Nat → Bool) (ts : List Task) : Nat → SchedState
  | 0 => initState ts
  | n + 1 => schedStep (O n) (schedRun O ts n)

/-- The loop's exit condition: no pending task, no active worker. -/
def SchedDone (σ : SchedState) : Prop :=
  σ.tasks = [] ∧ σ.workers = []

/-! ## Scheduler lemmas -/

theorem pollWorkers_length_le (alive : Nat → Bool) (ws : List (Nat × Task))
    (i : Nat) : (pollWorkers alive ws i).length ≤ ws.length := by
  have key : ∀ (m : Nat) (ws : List (Nat × Task)) (i : Nat),
      ws.length - i ≤ m → (pollWorkers alive ws i).length ≤ ws.length := by
    intro m
    induction m with
    | zero =>
      intro ws i h
      rw [pollWorkers]
      have hi : ¬ i < ws.length := by omega
      simp [hi]
    | succ m ih =>
      intro ws i h
      rw [pollWorkers]
      by_cases hi : i < ws.length
      · simp only [hi, dif_pos]
        by_cases ha : alive (ws.get ⟨i, hi⟩).1
        · simp only [ha, if_pos]
          exact ih ws (i + 1) (by omega)
        · simp only [ha, if_neg, Bool.false_eq_true, not_false_eq_true]
          have he : (ws.eraseIdx i).length = ws.length - 1 := by
            simp [List.length_eraseIdx, hi]
          have := ih (ws.eraseIdx i) (i + 1) (by omega)
          omega
      · simp [hi]
  exact key (ws.length - i) ws i le_rfl

theorem pollWorkers_subset (alive : Nat → Bool) (ws : List (Nat × Task))
    (i : Nat) (w : Nat × Task) (hw : w ∈ pollWorkers alive ws i) : w ∈ ws := by
  have key : ∀ (m : Nat) (ws : List (Nat × Task)) (i : Nat),
      ws.length - i ≤ m → ∀ w, w ∈ pollWorkers alive ws i → w ∈ ws := by
    intro m
    induction m with
    | zero =>
      intro ws i h w hw
      rw [pollWorkers] at hw
      have hi : ¬ i < ws.length := by omega
      simpa [hi] using hw
    | succ m ih =>
      intro ws i h w hw
      rw [pollWorkers] at hw
      by_cases hi : i < ws.length
      · simp only [hi, dif_pos] at hw
        by_cases ha : alive (ws.get ⟨i, hi⟩).1
        · simp only [ha, if_pos] at hw
          exact ih ws (i + 1) (by omega) w hw
        · simp only [ha, if_neg, Bool.false_eq_true, not_false_eq_true] at hw
          have he : (ws.eraseIdx i).length = ws.length - 1 := by
            simp [List.length_eraseIdx, hi]
          exact List.mem_of_mem_eraseIdx (ih (ws.eraseIdx i) (i + 1) (by omega) w hw)
      · simpa [hi] using hw
  exact key (ws.length - i) ws i le_rfl w hw

/-- When every active worker has exited, the polling pass removes at least
one of them (the buggy pop-while-iterating skips some, but never all). -/
theorem pollWorkers_length_lt (alive : Nat → Bool) (ws : List (Nat × Task))
    (hne : ws ≠ []) (hdead : ∀ w ∈ ws, alive w.1 = false) :
    (pollWorkers alive ws 0).length < ws.length := by
  have h0 : 0 < ws.length := List.length_pos.mpr hne
  rw [pollWorkers]
  simp only [h0, dif_pos]
  have hd : alive (ws.get ⟨0, h0⟩).1 = false := hdead _ (ws.get_mem _ _)
  simp only [hd, Bool.false_eq_true, if_neg, not_false_eq_true]
  have he : (ws.eraseIdx 0).length = ws.length - 1 := by
    simp [List.length_eraseIdx, h0]
  have := pollWorkers_length_le alive (ws.eraseIdx 0) (0 + 1)
  omega

/-- The scheduler invariant: the pending queue and the start log always
partition the initial task list, the worker count never exceeds the cap,
and worker identifiers are always below the fresh counter, which counts
the workers spawned so far. -/
def SchedInv (ts : List Task) (σ : SchedState) : Prop :=
  σ.tasks ++ σ.started = ts ∧
  σ.workers.length ≤ MAX_SIMULTANEOUS_WORKERS ∧
  (∀ w ∈ σ.workers, w.1 < σ.nextId) ∧
  σ.nextId = σ.started.length

theorem schedInv_init (ts : List Task) : SchedInv ts (initState ts) := by
  refine ⟨by simp [initState], ?_, ?_, by simp [initState]⟩
  · simp [initState, MAX_SIMULTANEOUS_WORKERS]
  · simp [initState]

theorem schedInv_step (alive : Nat → Bool) (ts : List Task) (σ : SchedState)
    (h : SchedInv ts σ) : SchedInv ts (schedStep alive σ) := by
  obtain ⟨h1, h2, h3, h4⟩ := h
  unfold schedStep
  split
  · next hc =>
    refine ⟨?_, ?_, ?_, ?_⟩
    · show σ.tasks.dropLast ++ (σ.tasks.getLast hc.1 :: σ.started) = ts
      rw [← h1]
      conv_rhs => rw [← List.dropLast_append_getLast hc.1]
      simp
    · show (σ.workers ++ [(σ.nextId, σ.tasks.getLast hc.1)]).length ≤ _
      simp only [List.length_append, List.length_cons, List.length_nil]
      omega
    · intro w hw
      simp only [List.mem_append, List.mem_singleton] at hw
      rcases hw with hw | hw
      · exact Nat.lt_succ_of_lt (h3 w hw)
      · subst hw; exact Nat.lt_succ_self _
    · show σ.nextId + 1 = (σ.tasks.getLast hc.1 :: σ.started).length
      simp [h4]
  · refine ⟨h1, le_trans (pollWorkers_length_le _ _ _) h2, ?_, h4⟩
    intro w hw
    exact h3 w (pollWorkers_subset _ _ _ _ hw)

theorem schedInv_run (O : Nat → Nat → Bool) (ts : List Task) (n : Nat) :
    SchedInv ts (schedRun O ts n) := by
  induction n with
  | zero => exact schedInv_init ts
  | succ n ih => exact schedInv_step (O n) ts _ ih

/-- `DONE` is absorbing: once the queue and the worker set are empty, a
further iteration changes nothing. -/
theorem schedStep_done (alive : Nat → Bool) (σ : SchedState)
    (h : SchedDone σ) : schedStep alive σ = σ := by
  obtain ⟨ht, hw⟩ := h
  cases σ with
  | mk tasks workers started nextId =>
    simp only at ht hw
    subst ht; subst hw
    unfold schedStep
    rw [dif_neg (by simp)]
    rw [pollWorkers]
    simp

/-- Termination measure for the scheduler loop. -/
def schedMeasure (σ : SchedState) : Nat :=
  7 * σ.tasks.length + σ.workers.length

/-- Each iteration from a not-yet-done state in which every active worker
has already exited strictly decreases the measure. -/
theorem schedStep_measure_lt (alive : Nat → Bool) (σ : SchedState)
    (hdead : ∀ w ∈ σ.workers, alive w.1 = false)
    (hnd : ¬ SchedDone σ) :
    schedMeasure (schedStep alive σ) < schedMeasure σ := by
  unfold schedStep
  split
  · next hc =>
    show schedMeasure ⟨σ.tasks.dropLast, σ.workers ++ [(σ.nextId, σ.tasks.getLast hc.1)],
      _, _⟩ < _
    have hlen : 0 < σ.tasks.length := List.length_pos.mpr hc.1
    simp only [schedMeasure, List.length_dropLast, List.length_append,
      List.length_cons, List.length_nil]
    omega
  · next hc =>
    have hwne : σ.workers ≠ [] := by
      intro hw
      apply hnd
      refine ⟨?_, hw⟩
      by_contra htne
      exact hc ⟨htne, by rw [hw]; simp [MAX_SIMULTANEOUS_WORKERS]⟩
    have := pollWorkers_length_lt alive σ.workers hwne hdead
    simp only [schedMeasure]
    omega

theorem schedDone_run_add (O : Nat → Nat → Bool) (ts : List Task) (t : Nat)
    (h : SchedDone (schedRun O ts t)) (k : Nat) :
    SchedDone (schedRun O ts (t + k)) := by
  induction k with
  | zero => exact h
  | succ k ih =>
    show SchedDone (schedStep (O (t + k)) (schedRun O ts (t + k)))
    rw [schedStep_done _ _ ih]
    exact ih

/-- Once every worker identifier that can ever be allocated is dead, the
loop reaches `DONE` within `schedMeasure` further iterations. -/
theorem sched_done_of_dead_after (O : Nat → Nat → Bool) (ts : List Task)
    (T : Nat) (hT : ∀ t, T ≤ t → ∀ id, id < ts.length → O t id = false) :
    ∀ (m t : Nat), T ≤ t → schedMeasure (schedRun O ts t) ≤ m →
      SchedDone (schedRun O ts (t + m)) := by
  intro m
  induction m with
  | zero =>
    intro t _ hm
    have h0 : 7 * (schedRun O ts t).tasks.length + (schedRun O ts t).workers.length = 0 := by
      simpa [schedMeasure] using hm
    rw [Nat.add_zero]
    exact ⟨List.length_eq_zero.mp (by omega), List.length_eq_zero.mp (by omega)⟩
  | succ m ih =>
    intro t ht hm
    by_cases hd : SchedDone (schedRun O ts t)
    · exact schedDone_run_add O ts t hd (m + 1)
    · have hinv := schedInv_run O ts t
      have hids : ∀ w ∈ (schedRun O ts t).workers, O t w.1 = false := by
        intro w hw
        apply hT t ht
        have h1 := hinv.2.2.1 w hw
        have h2 := hinv.2.2.2
        have h3 : (schedRun O ts t).started.length ≤ ts.length := by
          have := congrArg List.length hinv.1
          simp only [List.length_append] at this
          omega
        omega
      have hlt : schedMeasure (schedRun O ts (t + 1)) < schedMeasure (schedRun O ts t) := by
        show schedMeasure (schedStep (O t) (schedRun O ts t)) < _
        exact schedStep_measure_lt (O t) _ hids hd
      have := ih (t + 1) (by omega) (by omega)
      have harith : t + 1 + m = t + (m + 1) := by omega
      rwa [harith] at this

/-- From per-worker eventual death, a time after which every allocatable
worker identifier is dead. -/
theorem exists_uniform_death (O : Nat → Nat → Bool) :
    ∀ B : Nat, (∀ id, id < B → ∃ T, ∀ t, T ≤ t → O t id = false) →
      ∃ T, ∀ t, T ≤ t → ∀ id, id < B → O t id = false := by
  intro B
  induction B with
  | zero => exact fun _ => ⟨0, fun t _ id hid => absurd hid (by omega)⟩
  | succ B ih =>
    intro h
    obtain ⟨T1, h1⟩ := ih (fun id hid => h id (by omega))
    obtain ⟨T2, h2⟩ := h B (by omega)
    refine ⟨max T1 T2, fun t htle id hid => ?_⟩
    rcases Nat.lt_succ_iff_lt_or_eq.mp hid with hlt | heq
    · exact h1 t (le_trans (le_max_left _ _) htle) id hlt
    · subst heq; exact h2 t (le_trans (le_max_right _ _) htle)

/-- A concrete task, for instantiating universally quantified statements. -/
def sampleTask : Task :=
  { image_basename := "mem.raw"
    plugin := "pslist"
    output_path := "/out/mem/mem_pslist.txt"
    commandline := ["vol.py", "-f", "/cwd/mem.raw", "--profile=Win7SP1x64",
      "--kdbg=0x1", "pslist"] }

/-! ## Resolution lemmas -/

theorem splitOnChar_ne_nil (c : Char) (s : List Char) : splitOnChar c s ≠ [] := by
  cases s with
  | nil => simp [splitOnChar]
  | cons x xs =>
    unfold splitOnChar
    by_cases h : x = c
    · simp [h]
    · simp only [h, if_neg, not_false_eq_true]
      rcases splitOnChar c xs with _ | ⟨y, ys⟩ <;> simp

theorem splitOnChar_length_one (c : Char) (s : List Char)
    (h : (splitOnChar c s).length = 1) : splitOnChar c s = [s] := by
  induction s with
  | nil => rfl
  | cons x xs ih =>
    unfold splitOnChar at h ⊢
    by_cases hx : x = c
    · simp only [hx, if_pos] at h
      exact absurd (by simpa using h) (splitOnChar_ne_nil c xs)
    · simp only [hx, if_neg, not_false_eq_true] at h ⊢
      rcases hr : splitOnChar c xs with _ | ⟨y, ys⟩
      · exact absurd hr (splitOnChar_ne_nil c xs)
      · rw [hr] at h
        simp only [List.length_cons] at h
        have hys : ys = [] := List.length_eq_zero.mp (by omega)
        subst hys
        have := ih (by rw [hr]; rfl)
        rw [hr] at this
        simp only [List.cons.injEq] at this
        simp [this.1]

theorem splitOnChar_no_sep (c : Char) (s : List Char)
    (h : ∀ x ∈ s, x ≠ c) : splitOnChar c s = [s] := by
  induction s with
  | nil => rfl
  | cons x xs ih =>
    unfold splitOnChar
    have hx : ¬ x = c := h x (List.mem_cons_self x xs)
    simp only [hx, if_neg, not_false_eq_true]
    rw [ih (fun y hy => h y (List.mem_cons_of_mem x hy))]

/-- A basename with no dot yields the empty image name
(`'.'.join(b.split('.')[:-1])` drops the single piece). -/
theorem imageNameFrom_eq_empty (b : String) (h : ¬ '.' ∈ b.data) :
    imageNameFrom b = "" := by
  unfold imageNameFrom pySplit
  rw [splitOnChar_no_sep '.' b.data (fun x hx he => h (he ▸ hx))]
  rfl

/-- The operation name produced by `process_plugin` is always the
newline-stripped first space-token of the raw spec, independently of the
image. -/
theorem processPlugin_name (image : MemoryImage) (line : String) :
    (processPlugin image line).1 = pyStrip '\n' (pySplit line ' ').headI := by
  unfold processPlugin
  by_cases h : (pySplit line ' ').length = 1
  · simp only [h, if_pos]
    have hc : splitOnChar ' ' line.data = [line.data] :=
      splitOnChar_length_one ' ' line.data (by
        have : (pySplit line ' ').length = (splitOnChar ' ' line.data).length := by
          simp [pySplit]
        omega)
    have : pySplit line ' ' = [line] := by
      simp [pySplit, hc]
    rw [this]
    rfl
  · simp only [h, if_neg, not_false_eq_true]

/-- Every successful resolution produces exactly the record
`mkResolvedImage` builds from the run's configuration and the finally
selected profile and offset. -/
theorem resolveImage_ok_shape (cwd invocation image_path : String)
    (profile kdbg : Option String) (master : String)
    (plugins_list : Option String) (extract : Bool) (detectOutput : String)
    (img : MemoryImage)
    (h : (resolveImage cwd invocation image_path profile kdbg master
        plugins_list extract detectOutput).1 = Except.ok img) :
    img = mkResolvedImage cwd invocation image_path master plugins_list extract
      img.profile img.kdbg := by
  unfold resolveImage at h
  repeat' split at h
  all_goals
    first
      | contradiction
      | (simp at h; done)
      | (injection h with h2; subst h2; rfl)

/-- Task output paths depend only on the image's name, output directory
and plugin list. -/
theorem map_output_path_eq (img1 img2 : MemoryImage)
    (hn : img1.image_name = img2.image_name)
    (ho : img1.output_directory = img2.output_directory)
    (hv : img1.valid_plugins = img2.valid_plugins) :
    (generateFutureTasks img1).map Task.output_path
      = (generateFutureTasks img2).map Task.output_path := by
  unfold generateFutureTasks
  rw [hv]
  generalize img2.valid_plugins = ps
  induction ps with
  | nil => rfl
  | cons p rest ih =>
    unfold generateTasksAux
    simp only [List.map_cons, List.cons.injEq]
    refine ⟨?_, ih⟩
    show pyJoin img1.output_directory
        (img1.image_name ++ "_" ++ (processPlugin img1 p).1 ++ ".txt")
      = pyJoin img2.output_directory
        (img2.image_name ++ "_" ++ (processPlugin img2 p).1 ++ ".txt")
    rw [hn, ho, processPlugin_name, processPlugin_name]

/-! ## Claim theorems -/

/-- C1: at every observation point of the scheduler loop — any iteration
count, any initial task list, any pattern of worker exits — the number of
active workers is at most `MAX_SIMULTANEOUS_WORKERS` (6): a worker is
spawned only when the count is strictly below the cap, and polling only
removes workers. -/
theorem worker_cap_invariant (O : Nat → Nat → Bool) (ts : List Task) (n : Nat) :
    (schedRun O ts n).workers.length ≤ MAX_SIMULTANEOUS_WORKERS :=
  (schedInv_run O ts n).2.1

/-- C2: for every finite task list, if the scheduler is never interrupted
and every worker process eventually exits (each spawned worker identifier
is reported dead from some time on), the loop reaches the state with an
empty queue and no active worker, and the log of started tasks then equals
the initial task list — every queued task was removed and started exactly
once, never retried, never skipped. -/
theorem scheduler_terminates_all_tasks_started_once
    (ts : List Task) (O : Nat → Nat → Bool)
    (hexit : ∀ id, id < ts.length → ∃ T, ∀ t, T ≤ t → O t id = false) :
    ∃ n, SchedDone (schedRun O ts n) ∧ (schedRun O ts n).started = ts := by
  obtain ⟨T, hT⟩ := exists_uniform_death O ts.length hexit
  have hdone := sched_done_of_dead_after O ts T hT
    (schedMeasure (schedRun O ts T)) T le_rfl le_rfl
  refine ⟨T + schedMeasure (schedRun O ts T), hdone, ?_⟩
  have hinv := (schedInv_run O ts (T + schedMeasure (schedRun O ts T))).1
  rw [hdone.1] at hinv
  simpa using hinv

/-- Witness for C2: a one-task run whose worker dies immediately. -/
theorem scheduler_terminates_witness :
    ∃ n, SchedDone (schedRun (fun _ _ => false) [sampleTask] n) ∧
      (schedRun (fun _ _ => false) [sampleTask] n).started = [sampleTask] :=
  scheduler_terminates_all_tasks_started_once [sampleTask] (fun _ _ => false)
    (fun _ _ => ⟨0, fun _ _ => rfl⟩)

/-- C3 counterexample: a run whose only artifact carries an invalid
explicit profile is an upfront configuration failure (resolution aborts
with `invalidProfile` before any scheduling), yet the process exit code is
0 — `sys.exit()` without an argument — not non-zero as the claim states. -/
theorem invalid_profile_exits_zero :
    resolveAllImages "/cwd" "vol.py" "/out" (some "NotARealProfile")
        (some "0x1") none false [("img.raw", "")]
      = Except.error ResolveErr.invalidProfile ∧
    mainExitCode "/cwd" "vol.py" "/out" (some "NotARealProfile") (some "0x1")
        none false [("img.raw", "")] false = 0 := by
  constructor
  · decide
  · decide

/-- C3 amended: the exit code is 0 on normal completion and on operator
interruption, and ALSO on the invalid-explicit-profile abort; it is
non-zero exactly when resolution aborts with a detection-pattern parse
failure (the uncaught `AttributeError`). -/
theorem exit_nonzero_iff_detection_parse_failure
    (cwd invocation master : String) (profile kdbg : Option String)
    (plugins_list : Option String) (extract : Bool)
    (images : List (String × String)) (interrupted : Bool) :
    mainExitCode cwd invocation master profile kdbg plugins_list extract
        images interrupted ≠ 0 ↔
      (resolveAllImages cwd invocation master profile kdbg plugins_list
          extract images = Except.error ResolveErr.profilePatternMissing ∨
       resolveAllImages cwd invocation master profile kdbg plugins_list
          extract images = Except.error ResolveErr.kdbgPatternMissing) := by
  unfold mainExitCode
  rcases hr : resolveAllImages cwd invocation master profile kdbg plugins_list
      extract images with e | imgs
  · cases e <;> simp
  · simp

/-- C4 counterexample: with no explicit profile, resolution completes
using the auto-detected profile with NO membership check — here the
detection report suggests a profile outside the supported set and the
descriptor still resolves to it. -/
theorem autodetected_profile_unvalidated :
    (resolveImage "/cwd" "vol.py" "mem.raw" none none "/out" none false
        "Suggested Profile(s) : NotARealProfile, AlsoFake\nKDBG : 0x1\n").1.map
        MemoryImage.profile = Except.ok "NotARealProfile" ∧
    "NotARealProfile" ∉ SUPPORTED_PROFILES := by
  constructor
  · decide
  · decide

/-- C4 amended: only an EXPLICITLY supplied profile is validated — when
resolution completes, the resolved profile equals the explicit one and
belongs to the supported set, and an explicit profile outside the set
aborts the run; an auto-detected profile is adopted without any check
(see the counterexample). -/
theorem explicit_profile_validated (cwd invocation image_path : String)
    (profile kdbg : Option String) (master : String)
    (plugins_list : Option String) (extract : Bool) (detectOutput : String)
    (hp : truthy profile = true)
    (hok : exceptOk (resolveImage cwd invocation image_path profile kdbg master
        plugins_list extract detectOutput).1 = true) :
    (resolveImage cwd invocation image_path profile kdbg master plugins_list
        extract detectOutput).1.map MemoryImage.profile
      = Except.ok (profile.getD "") ∧
    profile.getD "" ∈ SUPPORTED_PROFILES := by
  by_cases hmem : profile.getD "" ∈ SUPPORTED_PROFILES
  · refine ⟨?_, hmem⟩
    unfold resolveImage at hok ⊢
    rw [if_neg (by simp [hp, hmem])] at hok ⊢
    by_cases hk : truthy kdbg = true
    · rw [if_pos ⟨hp, hk⟩]
      rfl
    · rw [if_neg (fun hc => hk hc.2)] at hok ⊢
      rcases hpd : parseDetection (pyBytesRepr detectOutput) with e | auto
      · rw [hpd] at hok
        simp [exceptOk] at hok
      · simp only [hpd, hp, if_pos]
        rfl
  · exfalso
    unfold resolveImage at hok
    rw [if_pos ⟨hp, hmem⟩] at hok
    simp [exceptOk] at hok

/-- Witness for C4's amended theorem, at a concrete supported explicit
profile. -/
theorem explicit_profile_validated_witness :
    truthy (some "Win7SP1x64") = true ∧
    exceptOk (resolveImage "/cwd" "vol.py" "mem.raw" (some "Win7SP1x64")
        (some "0x1") "/out" none false "").1 = true ∧
    ((resolveImage "/cwd" "vol.py" "mem.raw" (some "Win7SP1x64") (some "0x1")
        "/out" none false "").1.map MemoryImage.profile
      = Except.ok ((some "Win7SP1x64").getD "") ∧
    (some "Win7SP1x64").getD "" ∈ SUPPORTED_PROFILES) :=
  ⟨by decide, by decide,
    explicit_profile_validated "/cwd" "vol.py" "mem.raw" (some "Win7SP1x64")
      (some "0x1") "/out" none false "" (by decide) (by decide)⟩

/-- C5 (code bug, at the failing input): when the detection report
suggests a SINGLE profile, the selected default profile is not that
suggestion but the whole remainder of the repr-escaped report — the
source applies its line-bounded regular expression to `str(result_bytes)`,
in which real newlines are the two characters backslash-n, so the capture
overruns the line and the `", "`-split returns one garbage entry.  The
offset extraction, the single detection call and the persisted report are
unaffected. -/
theorem single_suggested_profile_misparsed :
    (resolveImage "/cwd" "vol.py" "mem.raw" none none "/out" none false
        "Suggested Profile(s) : Win10x64\nKDBG : 0xfffff800\n").1.map
        MemoryImage.profile
      = Except.ok "Win10x64\\nKDBG : 0xfffff800\\n'" ∧
    (resolveImage "/cwd" "vol.py" "mem.raw" none none "/out" none false
        "Suggested Profile(s) : Win10x64\nKDBG : 0xfffff800\n").1.map
        MemoryImage.kdbg
      = Except.ok "0xfffff800" ∧
    (resolveImage "/cwd" "vol.py" "mem.raw" none none "/out" none false
        "Suggested Profile(s) : Win10x64\nKDBG : 0xfffff800\n").2
      = ⟨1, some "/out/mem/mem_imageinfo.txt"⟩ := by
  refine ⟨?_, ?_, ?_⟩
  · decide
  · decide
  · decide

/-- C6: resolution with an explicit supported profile and an explicit
offset (both non-empty, hence truthy) never invokes the detection
operation and writes no detection report, whatever the tool would have
printed. -/
theorem explicit_pair_no_detection (cwd invocation image_path : String)
    (p k : String) (master : String) (plugins_list : Option String)
    (extract : Bool) (detectOutput : String)
    (hp : p ∈ SUPPORTED_PROFILES) (hpne : p ≠ "") (hkne : k ≠ "") :
    (resolveImage cwd invocation image_path (some p) (some k) master
        plugins_list extract detectOutput).2 = ⟨0, none⟩ := by
  have ht : truthy (some p) = true := by simp [truthy, hpne]
  have htk : truthy (some k) = true := by simp [truthy, hkne]
  unfold resolveImage
  rw [if_neg (by simp [ht, hp])]
  rw [if_pos ⟨ht, htk⟩]

/-- Witness for C6 at a concrete supported profile and offset. -/
theorem explicit_pair_no_detection_witness :
    "Win7SP1x64" ∈ SUPPORTED_PROFILES ∧ "Win7SP1x64" ≠ "" ∧ "0x1" ≠ "" ∧
    (resolveImage "/cwd" "vol.py" "mem.raw" (some "Win7SP1x64") (some "0x1")
        "/out" none false "ANY DETECTION OUTPUT").2 = ⟨0, none⟩ :=
  ⟨by decide, by decide, by decide,
    explicit_pair_no_detection "/cwd" "vol.py" "mem.raw" "Win7SP1x64" "0x1"
      "/out" none false "ANY DETECTION OUTPUT" (by decide) (by decide) (by decide)⟩

/-- C7: when an operation-list file is supplied, the resolved plugin list
is exactly the file's lines in file order, verbatim and unfiltered — the
profile, offset, extraction mode and detection output (hence the profile
classification) are universally quantified and never matter — and the
operation name used downstream of each line is its newline-stripped first
space-token. -/
theorem plugins_file_verbatim (cwd invocation image_path : String)
    (profile kdbg : Option String) (master content : String)
    (extract : Bool) (detectOutput : String)
    (hok : exceptOk (resolveImage cwd invocation image_path profile kdbg master
        (some content) extract detectOutput).1 = true) :
    (resolveImage cwd invocation image_path profile kdbg master (some content)
        extract detectOutput).1.map MemoryImage.valid_plugins
      = Except.ok (pyFileLines content) ∧
    ∀ (image : MemoryImage) (line : String),
      (processPlugin image line).1 = pyStrip '\n' (pySplit line ' ').headI := by
  refine ⟨?_, fun image line => processPlugin_name image line⟩
  rcases hr : (resolveImage cwd invocation image_path profile kdbg master
      (some content) extract detectOutput).1 with e | img
  · rw [hr] at hok
    simp [exceptOk] at hok
  · have hshape := resolveImage_ok_shape cwd invocation image_path profile kdbg
      master (some content) extract detectOutput img hr
    rw [hshape]
    rfl

/-- Witness for C7: a two-line plugins file with an explicit profile. -/
theorem plugins_file_verbatim_witness :
    exceptOk (resolveImage "/cwd" "vol.py" "mem.raw" (some "Win7SP1x64")
        (some "0x1") "/out" (some "pslist\nnetscan\n") false "").1 = true ∧
    ((resolveImage "/cwd" "vol.py" "mem.raw" (some "Win7SP1x64") (some "0x1")
        "/out" (some "pslist\nnetscan\n") false "").1.map
        MemoryImage.valid_plugins
      = Except.ok (pyFileLines "pslist\nnetscan\n") ∧
    ∀ (image : MemoryImage) (line : String),
      (processPlugin image line).1 = pyStrip '\n' (pySplit line ' ').headI) :=
  ⟨by decide,
    plugins_file_verbatim "/cwd" "vol.py" "mem.raw" (some "Win7SP1x64")
      (some "0x1") "/out" "pslist\nnetscan\n" false "" (by decide)⟩

/-- C8 counterexample: the first artifact's detection output matches
neither pattern, and the WHOLE run aborts with the parse error — no task
of any artifact is built, although the same second artifact alone would
have produced a task.  This contradicts the claim that other artifacts in
the run are unaffected. -/
theorem parse_failure_not_isolated :
    mainTasks "/cwd" "vol.py" "/out" none none (some "pslist\n") false
        [("a.raw", "garbage"),
         ("b.raw", "Suggested Profile(s) : Win10x64, Win10x86\nKDBG : 0x1\n")]
      = Except.error ResolveErr.profilePatternMissing ∧
    mainTasks "/cwd" "vol.py" "/out" none none (some "pslist\n") false
        [("b.raw", "Suggested Profile(s) : Win10x64, Win10x86\nKDBG : 0x1\n")]
      = Except.ok [Task.mk "b.raw" "pslist" "/out/b/b_pslist.txt"
          ["vol.py", "-f", "/cwd/b.raw", "--profile=Win10x64",
           "--kdbg=0x1", "pslist"]] := by
  constructor
  · decide
  · decide

/-- C8 amended: a `DetectionParseError` is fatal for the ENTIRE run, not
just the affected artifact: however many artifacts resolve before the
failing one and whatever artifacts follow it, resolution aborts with the
parse error, no task of any artifact is ever scheduled, and the process
exits with status 1 (the uncaught `AttributeError`). -/
theorem parse_failure_aborts_whole_run (cwd invocation master : String)
    (profile kdbg : Option String) (plugins_list : Option String)
    (extract : Bool) (interrupted : Bool)
    (pre : List (String × String)) (badPath badOut : String)
    (post : List (String × String)) (e : ResolveErr)
    (hpre : ∀ q ∈ pre, exceptOk (resolveImage cwd invocation q.1 profile kdbg
        master plugins_list extract q.2).1 = true)
    (hbad : (resolveImage cwd invocation badPath profile kdbg master
        plugins_list extract badOut).1 = Except.error e)
    (hnp : e ≠ ResolveErr.invalidProfile) :
    mainTasks cwd invocation master profile kdbg plugins_list extract
        (pre ++ (badPath, badOut) :: post) = Except.error e ∧
    mainExitCode cwd invocation master profile kdbg plugins_list extract
        (pre ++ (badPath, badOut) :: post) interrupted = 1 := by
  have hall : ∀ (pre : List (String × String)),
      (∀ q ∈ pre, exceptOk (resolveImage cwd invocation q.1 profile kdbg
          master plugins_list extract q.2).1 = true) →
      resolveAllImages cwd invocation master profile kdbg plugins_list extract
        (pre ++ (badPath, badOut) :: post) = Except.error e := by
    intro pre
    induction pre with
    | nil =>
      intro _
      rw [List.nil_append]
      unfold resolveAllImages
      rw [hbad]
    | cons q pre ih =>
      intro hpre
      obtain ⟨qPath, qOut⟩ := q
      have hq := hpre (qPath, qOut) (List.mem_cons_self _ _)
      rcases hrq : (resolveImage cwd invocation qPath profile kdbg master
          plugins_list extract qOut).1 with e' | img
      · rw [hrq] at hq
        simp [exceptOk] at hq
      · rw [List.cons_append]
        unfold resolveAllImages
        rw [hrq]
        rw [ih (fun p hp => hpre p (List.mem_cons_of_mem _ hp))]
  constructor
  · unfold mainTasks
    rw [hall pre hpre]
  · unfold mainExitCode
    rw [hall pre hpre]
    cases e
    · exact absurd rfl hnp
    · rfl
    · rfl

/-- Witness for C8's amended theorem: one good artifact follows the
failing one. -/
theorem parse_failure_aborts_whole_run_witness :
    ((resolveImage "/cwd" "vol.py" "a.raw" none none "/out" (some "pslist\n")
        false "garbage").1 = Except.error ResolveErr.profilePatternMissing) ∧
    (mainTasks "/cwd" "vol.py" "/out" none none (some "pslist\n") false
        [("a.raw", "garbage"),
         ("b.raw", "Suggested Profile(s) : Win10x64, Win10x86\nKDBG : 0x1\n")]
      = Except.error ResolveErr.profilePatternMissing ∧
    mainExitCode "/cwd" "vol.py" "/out" none none (some "pslist\n") false
        [("a.raw", "garbage"),
         ("b.raw", "Suggested Profile(s) : Win10x64, Win10x86\nKDBG : 0x1\n")]
        false = 1) :=
  ⟨by decide,
    parse_failure_aborts_whole_run "/cwd" "vol.py" "/out" none none
      (some "pslist\n") false false [] "a.raw" "garbage"
      [("b.raw", "Suggested Profile(s) : Win10x64, Win10x86\nKDBG : 0x1\n")]
      ResolveErr.profilePatternMissing (by intro q hq; cases hq) (by decide)
      (by decide)⟩

/-- C9: the `i`-th task generated for an image is built from the `i`-th
entry of its plugin list, with the command line in the fixed order
invocation, `-f`, artifact path, `--profile=`, `--kdbg=`, operation name,
then resolved flags, and with output path
`{imageName}_{operationName}.txt` inside the image's output directory. -/
theorem task_commandline_structure (image : MemoryImage) (i : Nat) :
    (generateFutureTasks image)[i]? = (image.valid_plugins[i]?).map
      (fun plugin =>
        { image_basename := image.basename
          plugin := (processPlugin image plugin).1
          output_path := pyJoin image.output_directory
            (image.image_name ++ "_" ++ (processPlugin image plugin).1 ++ ".txt")
          commandline := [image.invocation, "-f", image.abspath,
            "--profile=" ++ image.profile, "--kdbg=" ++ image.kdbg,
            (processPlugin image plugin).1] ++ (processPlugin image plugin).2 }) := by
  unfold generateFutureTasks
  generalize image.valid_plugins = ps
  induction ps generalizing i with
  | nil => simp [generateTasksAux]
  | cons p rest ih =>
    cases i with
    | zero => simp [generateTasksAux]
    | succ n =>
      simp only [generateTasksAux, List.getElem?_cons_succ]
      exact ih n

/-- Every generated task's output path and basename follow the image's
naming scheme. -/
theorem generateTasks_mem_fields (image : MemoryImage) (t : Task)
    (ht : t ∈ generateFutureTasks image) :
    t.output_path = pyJoin image.output_directory
      (image.image_name ++ "_" ++ t.plugin ++ ".txt") := by
  unfold generateFutureTasks at ht
  generalize hps : image.valid_plugins = ps at ht
  clear hps
  induction ps with
  | nil => cases ht
  | cons p rest ih =>
    unfold generateTasksAux at ht
    rcases List.mem_cons.mp ht with h | h
    · subst h
      rfl
    · exact ih h

/-- C10: an artifact whose basename holds no dot gets the empty image
name, its output directory collapses to the output root (the root path
with a trailing separator), every generated output file is named
`_{operationName}.txt` directly under that root, and two such artifacts
resolved in the same run with the same plugin list produce the SAME list
of output paths. -/
theorem dotless_basename_collision (cwd invocation path1 path2 master : String)
    (profile kdbg : Option String) (plugins_list : Option String)
    (extract : Bool) (d1 d2 : String) (img1 img2 : MemoryImage)
    (h1 : ¬ '.' ∈ (pyBasename path1).data)
    (h2 : ¬ '.' ∈ (pyBasename path2).data)
    (hr1 : (resolveImage cwd invocation path1 profile kdbg master plugins_list
        extract d1).1 = Except.ok img1)
    (hr2 : (resolveImage cwd invocation path2 profile kdbg master plugins_list
        extract d2).1 = Except.ok img2)
    (hv : img1.valid_plugins = img2.valid_plugins) :
    img1.image_name = "" ∧
    img1.output_directory = pyJoin master "" ∧
    (∀ t ∈ generateFutureTasks img1,
        t.output_path = pyJoin (pyJoin master "") ("_" ++ t.plugin ++ ".txt")) ∧
    (generateFutureTasks img1).map Task.output_path
      = (generateFutureTasks img2).map Task.output_path := by
  have hs1 := resolveImage_ok_shape cwd invocation path1 profile kdbg master
    plugins_list extract d1 img1 hr1
  have hs2 := resolveImage_ok_shape cwd invocation path2 profile kdbg master
    plugins_list extract d2 img2 hr2
  have hn1 : img1.image_name = "" := by
    rw [hs1]
    show imageNameFrom (pyBasename path1) = ""
    exact imageNameFrom_eq_empty _ h1
  have hn2 : img2.image_name = "" := by
    rw [hs2]
    show imageNameFrom (pyBasename path2) = ""
    exact imageNameFrom_eq_empty _ h2
  have ho1 : img1.output_directory = pyJoin master "" := by
    rw [hs1]
    show pyJoin master (imageNameFrom (pyBasename path1)) = pyJoin master ""
    rw [imageNameFrom_eq_empty _ h1]
  have ho2 : img2.output_directory = pyJoin master "" := by
    rw [hs2]
    show pyJoin master (imageNameFrom (pyBasename path2)) = pyJoin master ""
    rw [imageNameFrom_eq_empty _ h2]
  refine ⟨hn1, ho1, ?_, ?_⟩
  · intro t ht
    rw [generateTasks_mem_fields img1 t ht, hn1, ho1]
    simp
  · exact map_output_path_eq img1 img2 (hn1.trans hn2.symm)
      (ho1.trans ho2.symm) hv

/-- The resolved image of the dotless artifact `memdump1` used by the
witness below. -/
def dotlessImg1 : MemoryImage :=
  { invocation := "vol.py", basename := "memdump1", image_name := ""
    abspath := "/cwd/memdump1", output_directory := "/out/"
    profile := "Win7SP1x64", kdbg := "0x1", extract_artifacts := false
    valid_plugins := ["pslist\n"] }

/-- The resolved image of the dotless artifact `memdump2` used by the
witness below. -/
def dotlessImg2 : MemoryImage :=
  { invocation := "vol.py", basename := "memdump2", image_name := ""
    abspath := "/cwd/memdump2", output_directory := "/out/"
    profile := "Win7SP1x64", kdbg := "0x1", extract_artifacts := false
    valid_plugins := ["pslist\n"] }

/-- Witness for C10: two dot-less artifacts in one run collide. -/
theorem dotless_basename_collision_witness :
    (¬ '.' ∈ (pyBasename "memdump1").data) ∧
    (¬ '.' ∈ (pyBasename "memdump2").data) ∧
    (resolveImage "/cwd" "vol.py" "memdump1" (some "Win7SP1x64") (some "0x1")
        "/out" (some "pslist\n") false "").1 = Except.ok dotlessImg1 ∧
    (resolveImage "/cwd" "vol.py" "memdump2" (some "Win7SP1x64") (some "0x1")
        "/out" (some "pslist\n") false "").1 = Except.ok dotlessImg2 ∧
    (dotlessImg1.image_name = "" ∧
     dotlessImg1.output_directory = pyJoin "/out" "" ∧
     (∀ t ∈ generateFutureTasks dotlessImg1,
        t.output_path = pyJoin (pyJoin "/out" "") ("_" ++ t.plugin ++ ".txt")) ∧
     (generateFutureTasks dotlessImg1).map Task.output_path
       = (generateFutureTasks dotlessImg2).map Task.output_path) :=
  ⟨by decide, by decide, by decide, by decide,
    dotless_basename_collision "/cwd" "vol.py" "memdump1" "memdump2" "/out"
      (some "Win7SP1x64") (some "0x1") (some "pslist\n") false "" ""
      dotlessImg1 dotlessImg2 (by decide) (by decide) (by decide) (by decide)
      (by decide)⟩

end BulkVol
